import Mathlib

/-!
Shallow embedding of the traffic_sim repository.

Sources embedded here:
* `src/Car.py` — class `Car` (vehicle agent).
* `src/TrafficLight.py` — classes `TrafficLight` and `TrafficLightSet`
  (signal and signal controller).
* `src/Environment.py` — class `Environment` (simulation engine).

Modelling conventions:
* Python ints are `Int` (coordinates, timers; Python ints can go negative)
  or `Nat` (counters, list lengths, grid sizes).
* Python floats in the statistics are modelled with exact rationals `ℚ`
  (the code only divides a sum of ints by a count).
* `random.random() < self.spawn_rate` is modelled by a boolean parameter
  `draw` passed to the engine step (the outcome of the Bernoulli trial).
* State strings ("RED", "GREEN", "time_cycle", ...) are kept as `String`,
  exactly as in the source.
* In-place mutation becomes explicit state passing: each method returns the
  updated object.
-/

/-- Embeds `TrafficLight.py`, class `TrafficLight`: a single signal with a grid
position, a color state and the travel axis it governs. -/
structure TrafficLight where
  position : Int × Int
  state : String
  direction : String
deriving DecidableEq, Repr

/-- Embeds `TrafficLight.set_state`. -/
def TrafficLight.set_state (l : TrafficLight) (new_state : String) : TrafficLight :=
  { l with state := new_state }

/-- Embeds `Car.py`, class `Car`: vehicle agent fields, as set up by `Car.__init__`
(which also fixes `speed = 1`, `idle_time = 0`, `has_moved = False`,
`completed = False`). -/
structure Car where
  id : Nat
  position : Int × Int
  direction : Int × Int
  speed : Int
  idle_time : Nat
  has_moved : Bool
  completed : Bool
deriving DecidableEq, Repr

/-- Embeds `Car.__init__(unique_id, position, direction)`. -/
def Car.make (unique_id : Nat) (position direction : Int × Int) : Car :=
  { id := unique_id, position := position, direction := direction,
    speed := 1, idle_time := 0, has_moved := false, completed := false }

/-- Embeds `Car.is_position_occupied`: a position is occupied when some car with a
different id sits on it. -/
def Car.is_position_occupied (self : Car) (position : Int × Int)
    (other_cars : List Car) : Bool :=
  other_cars.any (fun car => decide (car.id ≠ self.id ∧ car.position = position))

/-- Embeds `Car.at_traffic_light`: exact position comparison with one signal. -/
def Car.at_traffic_light (self : Car) (light : TrafficLight) : Bool :=
  decide (self.position = light.position)

/-- Embeds `Car.move_forward`: advance by `direction * speed` and record the move. -/
def Car.move_forward (self : Car) : Car :=
  { self with
    position := (self.position.1 + self.direction.1 * self.speed,
                 self.position.2 + self.direction.2 * self.speed),
    has_moved := true }

/-- Embeds `Car.step(traffic_lights, other_cars)`: reset `has_moved`; idle if the
next cell is occupied; else idle if at a RED or YELLOW signal; else move.
(The source resets `has_moved` first and the checks never read it, so the
reset is folded into each outcome here; the outcomes are identical.) -/
def Car.step (self : Car) (traffic_lights : List TrafficLight)
    (other_cars : List Car) : Car :=
  let next_position : Int × Int :=
    (self.position.1 + self.direction.1, self.position.2 + self.direction.2)
  if self.is_position_occupied next_position other_cars then
    { self with has_moved := false, idle_time := self.idle_time + 1 }
  else if traffic_lights.any (fun light =>
      self.at_traffic_light light &&
        decide (light.state = "RED" ∨ light.state = "YELLOW")) then
    { self with has_moved := false, idle_time := self.idle_time + 1 }
  else
    { self with has_moved := false }.move_forward

/-- Embeds `Car.is_off_grid` (the boolean test; the `completed := true` side effect
is applied by the engine's removal pass where the test is true). -/
def Car.is_off_grid (self : Car) (grid_width grid_height : Nat) : Bool :=
  decide (self.position.1 < 0 ∨ (grid_width : Int) ≤ self.position.1 ∨
          self.position.2 < 0 ∨ (grid_height : Int) ≤ self.position.2)

/-- Embeds `TrafficLight.py`, class `TrafficLightSet`: the controller state. -/
structure TrafficLightSet where
  grid_width : Nat
  grid_height : Nat
  num_lanes : Nat
  detection : String
  y_green_time : Int
  x_green_time : Int
  yellow_time : Int
  y_turn : Bool
  current_timer : Int
  current_state : String
  north_south_lights : List TrafficLight
  east_west_lights : List TrafficLight
deriving DecidableEq, Repr

/-- Embeds `TrafficLightSet._initialize_lights`, north-south list: two GREEN "NS"
lights per lane at the positions computed in the source. -/
def TrafficLightSet.makeNorthSouth (grid_width grid_height num_lanes : Nat) :
    List TrafficLight :=
  let x_mid : Int := (grid_width / 2 : Nat)
  let y_mid : Int := (grid_height / 2 : Nat)
  let n : Int := num_lanes
  (List.range num_lanes).foldr (fun (lane : Nat) (acc : List TrafficLight) =>
    { position := (x_mid + (lane : Int), y_mid - n - 1),
      state := "GREEN", direction := "NS" } ::
    { position := (x_mid - (lane : Int) - 1, y_mid + n),
      state := "GREEN", direction := "NS" } :: acc) []

/-- Embeds `TrafficLightSet._initialize_lights`, east-west list: two RED "EW"
lights per lane at the positions computed in the source. -/
def TrafficLightSet.makeEastWest (grid_width grid_height num_lanes : Nat) :
    List TrafficLight :=
  let x_mid : Int := (grid_width / 2 : Nat)
  let y_mid : Int := (grid_height / 2 : Nat)
  let n : Int := num_lanes
  (List.range num_lanes).foldr (fun (lane : Nat) (acc : List TrafficLight) =>
    { position := (x_mid - n - 1, y_mid - (lane : Int) - 1),
      state := "RED", direction := "EW" } ::
    { position := (x_mid + n, y_mid + (lane : Int)),
      state := "RED", direction := "EW" } :: acc) []

/-- Embeds `TrafficLightSet.__init__`: stores the configuration unvalidated, starts
with `y_turn = True`, `current_timer = y_green_time`,
`current_state = "GREEN"`, and builds the lights. -/
def TrafficLightSet.make (grid_width grid_height num_lanes : Nat)
    (y_green_time x_green_time yellow_time : Int) (detection : String) :
    TrafficLightSet :=
  { grid_width := grid_width, grid_height := grid_height,
    num_lanes := num_lanes, detection := detection,
    y_green_time := y_green_time, x_green_time := x_green_time,
    yellow_time := yellow_time,
    y_turn := true, current_timer := y_green_time, current_state := "GREEN",
    north_south_lights := TrafficLightSet.makeNorthSouth grid_width grid_height num_lanes,
    east_west_lights := TrafficLightSet.makeEastWest grid_width grid_height num_lanes }

/-- Embeds `TrafficLightSet._set_active_lights`: set every light on the currently
active axis (`y_turn` picks north-south vs east-west) to the given state. -/
def TrafficLightSet.set_active_lights (s : TrafficLightSet) (st : String) :
    TrafficLightSet :=
  if s.y_turn then
    { s with north_south_lights :=
        s.north_south_lights.map (fun l => l.set_state st) }
  else
    { s with east_west_lights :=
        s.east_west_lights.map (fun l => l.set_state st) }

/-- Embeds `TrafficLightSet._time_cycle_step`: decrement the timer, then run the
GREEN→YELLOW / YELLOW→RED-swap-GREEN transitions on timer expiry. -/
def TrafficLightSet.time_cycle_step (s0 : TrafficLightSet) : TrafficLightSet :=
  let s := { s0 with current_timer := s0.current_timer - 1 }
  if s.current_state = "GREEN" then
    if s.current_timer ≤ 0 then
      TrafficLightSet.set_active_lights
        { s with current_state := "YELLOW", current_timer := s.yellow_time }
        "YELLOW"
    else s
  else if s.current_state = "YELLOW" then
    if s.current_timer ≤ 0 then
      let s1 := TrafficLightSet.set_active_lights s "RED"
      let s2 := { s1 with y_turn := !s1.y_turn, current_state := "GREEN" }
      let s3 := { s2 with current_timer :=
        if s2.y_turn then s2.y_green_time else s2.x_green_time }
      TrafficLightSet.set_active_lights s3 "GREEN"
    else s
  else s

/-- Embeds `TrafficLightSet._count_waiting_cars`: count cars within 2 cells (on both
coordinates) of some light of the given axis that did not move; `None` (and
an empty list) counts as zero. -/
def TrafficLightSet.count_waiting_cars (s : TrafficLightSet)
    (cars : Option (List Car)) (direction : String) : Nat :=
  match cars with
  | none => 0
  | some cs =>
    let lights := if direction = "NS" then s.north_south_lights
                  else s.east_west_lights
    cs.countP (fun car => lights.any (fun light =>
      decide ((car.position.1 - light.position.1).natAbs ≤ 2 ∧
              (car.position.2 - light.position.2).natAbs ≤ 2 ∧
              car.has_moved = false)))

/-- Embeds `TrafficLightSet._detection_cycle_step`: like the time cycle, but during
GREEN also switch early when the active axis has no waiting car and the
other axis has at least one.  (The source also computes an unused
`max_time` local, omitted here.) -/
def TrafficLightSet.detection_cycle_step (s0 : TrafficLightSet)
    (cars : Option (List Car)) : TrafficLightSet :=
  let ns_waiting := s0.count_waiting_cars cars "NS"
  let ew_waiting := s0.count_waiting_cars cars "EW"
  let s := { s0 with current_timer := s0.current_timer - 1 }
  if s.current_state = "GREEN" then
    let active_waiting := if s.y_turn then ns_waiting else ew_waiting
    let other_waiting := if s.y_turn then ew_waiting else ns_waiting
    if (active_waiting = 0 ∧ 0 < other_waiting) ∨ s.current_timer ≤ 0 then
      TrafficLightSet.set_active_lights
        { s with current_state := "YELLOW", current_timer := s.yellow_time }
        "YELLOW"
    else s
  else if s.current_state = "YELLOW" then
    if s.current_timer ≤ 0 then
      let s1 := TrafficLightSet.set_active_lights s "RED"
      let s2 := { s1 with y_turn := !s1.y_turn, current_state := "GREEN" }
      let s3 := { s2 with current_timer :=
        if s2.y_turn then s2.y_green_time else s2.x_green_time }
      TrafficLightSet.set_active_lights s3 "GREEN"
    else s
  else s

/-- Embeds `TrafficLightSet.step(cars=None)`: dispatch on the detection mode string;
any other mode does nothing. -/
def TrafficLightSet.step (s : TrafficLightSet) (cars : Option (List Car)) :
    TrafficLightSet :=
  if s.detection = "time_cycle" then s.time_cycle_step
  else if s.detection = "detection_cycle" then s.detection_cycle_step cars
  else s

/-- Embeds `TrafficLightSet.get_all_lights`. -/
def TrafficLightSet.get_all_lights (s : TrafficLightSet) : List TrafficLight :=
  s.north_south_lights ++ s.east_west_lights

/-- Embeds `Environment.py`, class `Environment`: engine state. -/
structure Environment where
  light_type : String
  grid_width : Nat
  grid_height : Nat
  cars : List Car
  time : Nat
  spawn_rate : ℚ
  max_cars : Option Nat
  num_lanes : Nat
  traffic_light : TrafficLightSet
  simulation_duration : Option Nat
  car_id_counter : Nat
  total_cars_spawned : Nat
  total_cars_completed : Nat
  is_running : Bool
deriving DecidableEq, Repr

/-- Embeds `Environment.is_position_occupied`: any active car on the position
(no id to skip at engine level). -/
def Environment.is_position_occupied (e : Environment) (position : Int × Int) :
    Bool :=
  e.cars.any (fun car => decide (car.position = position))

/-- Embeds `Environment.spawn_car`: one entry cell at `(0, grid_height // 2)` moving
east; append a fresh car only when that cell is free.  (The source never
consults `max_cars` here.) -/
def Environment.spawn_car (e : Environment) : Environment :=
  let spawn_position : Int × Int := (0, ((e.grid_height / 2 : Nat) : Int))
  if e.is_position_occupied spawn_position then e
  else
    { e with
      cars := e.cars ++ [Car.make e.car_id_counter spawn_position (1, 0)],
      car_id_counter := e.car_id_counter + 1,
      total_cars_spawned := e.total_cars_spawned + 1 }

/-- The vehicle-update loop of `Environment.step`:
`for car in self.cars: car.step(self.traffic_light, self.cars)`.
Cars are updated one at a time, in list order, and each car's `step` reads
the *live* list — earlier cars already updated, later cars still at their
pre-tick state.  `done` are the already-updated cars, `todo` the rest.
(The source hands `Car.step` the controller object where the vehicle code
iterates over individual lights; the lights iterated are modelled by
`get_all_lights`.) -/
def Environment.update_go (lights : List TrafficLight) :
    List Car → List Car → List Car
  | done, [] => done
  | done, c :: todo =>
    Environment.update_go lights
      (done ++ [c.step lights (done ++ c :: todo)]) todo

/-- The whole vehicle-update pass over the live car list. -/
def Environment.update_cars (lights : List TrafficLight) (cars : List Car) :
    List Car :=
  Environment.update_go lights [] cars

/-- Embeds `Environment.remove_completed_cars`: drop off-grid cars (marking them
completed as they go) and count them into `total_cars_completed`.  Cars that
stay are unchanged (`is_off_grid` mutates only when it returns true). -/
def Environment.remove_completed_cars (e : Environment) : Environment :=
  { e with
    cars := e.cars.filter (fun c => !c.is_off_grid e.grid_width e.grid_height),
    total_cars_completed := e.total_cars_completed +
      e.cars.countP (fun c => c.is_off_grid e.grid_width e.grid_height) }

/-- Statement 1 of `Environment.step`: the controller update, invoked as
`self.traffic_light.step()` — that is, with `cars=None`. -/
def Environment.light_phase (e : Environment) : Environment :=
  { e with traffic_light := e.traffic_light.step none }

/-- Statement 2 of `Environment.step`: spawn a car when the Bernoulli draw
`random.random() < self.spawn_rate` (the parameter `draw`) succeeded. -/
def Environment.spawn_phase (e : Environment) (draw : Bool) : Environment :=
  if draw then e.spawn_car else e

/-- Statement 3 of `Environment.step`: the live in-order vehicle updates. -/
def Environment.vehicle_phase (e : Environment) : Environment :=
  { e with
    cars := Environment.update_cars e.traffic_light.get_all_lights e.cars }

/-- Statement 5 of `Environment.step`: the clock advance. -/
def Environment.clock_phase (e : Environment) : Environment :=
  { e with time := e.time + 1 }

/-- Embeds `Environment.step`: (1) controller step with `cars=None`; (2) spawn
attempt; (3) live in-order vehicle updates; (4) removal of off-grid cars
with counter update; (5) clock advance — in exactly this order. -/
def Environment.step (e : Environment) (draw : Bool) : Environment :=
  ((((e.light_phase).spawn_phase draw).vehicle_phase).remove_completed_cars).clock_phase

/-- Embeds `Environment.get_average_idle_time`: average idle time over *active*
cars, `0` when there are none (floats modelled as exact rationals). -/
def Environment.get_average_idle_time (e : Environment) : ℚ :=
  if e.cars.length = 0 then 0
  else (e.cars.map (fun car => (car.idle_time : ℚ))).sum / (e.cars.length : ℚ)

/-! ### Controller observations and invariants -/

/-- Every light in the list shows the given color. -/
def allState (ls : List TrafficLight) (st : String) : Prop :=
  ∀ l ∈ ls, l.state = st

instance (ls : List TrafficLight) (st : String) : Decidable (allState ls st) :=
  List.decidableBAll _ ls

/-- The lights of the currently active axis (`y_turn` true = north-south). -/
def activeLights (s : TrafficLightSet) : List TrafficLight :=
  if s.y_turn then s.north_south_lights else s.east_west_lights

/-- The lights of the currently inactive axis. -/
def inactiveLights (s : TrafficLightSet) : List TrafficLight :=
  if s.y_turn then s.east_west_lights else s.north_south_lights

/-- Inductive controller invariant: every signal on the inactive axis is RED. -/
def InactiveRed (s : TrafficLightSet) : Prop :=
  allState (inactiveLights s) "RED"

instance (s : TrafficLightSet) : Decidable (InactiveRed s) := by
  unfold InactiveRed; infer_instance

/-- Mutual exclusion: the two axes are never simultaneously non-RED. -/
def Mutex (s : TrafficLightSet) : Prop :=
  ¬ ((∃ l ∈ s.north_south_lights, l.state ≠ "RED") ∧
     (∃ l ∈ s.east_west_lights, l.state ≠ "RED"))

instance (s : TrafficLightSet) : Decidable (Mutex s) := by
  unfold Mutex; infer_instance

theorem allState_map_set (ls : List TrafficLight) (st : String) :
    allState (ls.map (fun l => l.set_state st)) st := by
  intro l hl
  rcases List.mem_map.mp hl with ⟨x, _, rfl⟩
  rfl

theorem mutex_of_inactiveRed (s : TrafficLightSet) (h : InactiveRed s) :
    Mutex s := by
  unfold InactiveRed inactiveLights allState at h
  unfold Mutex
  rintro ⟨⟨lns, hlns, hns⟩, ⟨lew, hlew, hew⟩⟩
  cases hy : s.y_turn with
  | true => rw [hy] at h; simp at h; exact hew (h lew hlew)
  | false => rw [hy] at h; simp at h; exact hns (h lns hlns)

theorem set_active_lights_inactive (s : TrafficLightSet) (st : String) :
    inactiveLights (s.set_active_lights st) = inactiveLights s := by
  cases hy : s.y_turn <;>
    simp [inactiveLights, TrafficLightSet.set_active_lights, hy]

theorem set_active_lights_active (s : TrafficLightSet) (st : String) :
    activeLights (s.set_active_lights st) =
      (activeLights s).map (fun l => l.set_state st) := by
  cases hy : s.y_turn <;>
    simp [activeLights, TrafficLightSet.set_active_lights, hy]

theorem set_active_lights_y_turn (s : TrafficLightSet) (st : String) :
    (s.set_active_lights st).y_turn = s.y_turn := by
  unfold TrafficLightSet.set_active_lights; split <;> rfl

/-- Embeds `_time_cycle_step`, GREEN phase, timer not yet expired: only the timer
decrement is observable. -/
theorem time_cycle_green_wait (s : TrafficLightSet)
    (hg : s.current_state = "GREEN") (ht : 0 < s.current_timer - 1) :
    s.time_cycle_step = { s with current_timer := s.current_timer - 1 } := by
  unfold TrafficLightSet.time_cycle_step
  dsimp only
  rw [if_pos hg, if_neg (by omega : ¬ s.current_timer - 1 ≤ 0)]

/-- Embeds `_time_cycle_step`, GREEN phase, timer expired: switch the active axis to
YELLOW with the yellow duration. -/
theorem time_cycle_green_switch (s : TrafficLightSet)
    (hg : s.current_state = "GREEN") (ht : s.current_timer - 1 ≤ 0) :
    s.time_cycle_step =
      TrafficLightSet.set_active_lights
        { s with current_state := "YELLOW", current_timer := s.yellow_time }
        "YELLOW" := by
  unfold TrafficLightSet.time_cycle_step
  dsimp only
  rw [if_pos hg, if_pos (by omega : s.current_timer - 1 ≤ 0)]

/-- Embeds `_time_cycle_step`, YELLOW phase, timer not yet expired. -/
theorem time_cycle_yellow_wait (s : TrafficLightSet)
    (hg : s.current_state = "YELLOW") (ht : 0 < s.current_timer - 1) :
    s.time_cycle_step = { s with current_timer := s.current_timer - 1 } := by
  unfold TrafficLightSet.time_cycle_step
  dsimp only
  rw [if_neg (by rw [hg]; decide), if_pos hg,
      if_neg (by omega : ¬ s.current_timer - 1 ≤ 0)]

/-- Embeds `_time_cycle_step`, YELLOW phase, timer expired: active axis to RED,
axis flip, new green duration, new active axis to GREEN. -/
theorem time_cycle_yellow_switch (s : TrafficLightSet)
    (hg : s.current_state = "YELLOW") (ht : s.current_timer - 1 ≤ 0) :
    s.time_cycle_step =
      TrafficLightSet.set_active_lights
        { (TrafficLightSet.set_active_lights
             { s with current_timer := s.current_timer - 1 } "RED") with
          y_turn := !s.y_turn, current_state := "GREEN",
          current_timer := if !s.y_turn then s.y_green_time else s.x_green_time }
        "GREEN" := by
  unfold TrafficLightSet.time_cycle_step
  dsimp only
  rw [if_neg (by rw [hg]; decide), if_pos hg,
      if_pos (by omega : s.current_timer - 1 ≤ 0)]
  cases hy : s.y_turn <;>
    simp [TrafficLightSet.set_active_lights, hy]

/-- Embeds `_time_cycle_step` when the phase string is neither GREEN nor YELLOW:
only the timer decrement happens. -/
theorem time_cycle_other (s : TrafficLightSet)
    (h1 : s.current_state ≠ "GREEN") (h2 : s.current_state ≠ "YELLOW") :
    s.time_cycle_step = { s with current_timer := s.current_timer - 1 } := by
  unfold TrafficLightSet.time_cycle_step
  dsimp only
  rw [if_neg h1, if_neg h2]

/-- Embeds `_detection_cycle_step`, GREEN phase: switch when the active axis has no
waiting car and the other has one, or on timer expiry; else just count down. -/
theorem detection_cycle_green (s : TrafficLightSet) (cars : Option (List Car))
    (hg : s.current_state = "GREEN") :
    s.detection_cycle_step cars =
      if ((if s.y_turn then s.count_waiting_cars cars "NS"
           else s.count_waiting_cars cars "EW") = 0 ∧
          0 < (if s.y_turn then s.count_waiting_cars cars "EW"
               else s.count_waiting_cars cars "NS")) ∨
         s.current_timer - 1 ≤ 0 then
        TrafficLightSet.set_active_lights
          { s with current_state := "YELLOW", current_timer := s.yellow_time }
          "YELLOW"
      else { s with current_timer := s.current_timer - 1 } := by
  unfold TrafficLightSet.detection_cycle_step
  dsimp only
  rw [if_pos hg]

/-- Embeds `_detection_cycle_step` outside the GREEN phase behaves exactly like
`_time_cycle_step` (the waiting-car counts are computed but unused). -/
theorem detection_cycle_not_green (s : TrafficLightSet)
    (cars : Option (List Car)) (hg : s.current_state ≠ "GREEN") :
    s.detection_cycle_step cars = s.time_cycle_step := by
  unfold TrafficLightSet.detection_cycle_step TrafficLightSet.time_cycle_step
  dsimp only
  rw [if_neg hg, if_neg hg]

theorem time_cycle_inactive (s : TrafficLightSet) (h : InactiveRed s) :
    InactiveRed s.time_cycle_step := by
  by_cases hg : s.current_state = "GREEN"
  · by_cases ht : s.current_timer - 1 ≤ 0
    · rw [time_cycle_green_switch s hg ht]
      unfold InactiveRed
      rw [set_active_lights_inactive]
      exact h
    · rw [time_cycle_green_wait s hg (by omega)]
      exact h
  · by_cases hy : s.current_state = "YELLOW"
    · by_cases ht : s.current_timer - 1 ≤ 0
      · rw [time_cycle_yellow_switch s hy ht]
        unfold InactiveRed
        rw [set_active_lights_inactive]
        cases hb : s.y_turn <;>
          simp only [inactiveLights, TrafficLightSet.set_active_lights, hb,
            Bool.not_true, Bool.not_false, Bool.false_eq_true, if_true,
            if_false] <;>
          exact allState_map_set _ _
      · rw [time_cycle_yellow_wait s hy (by omega)]
        exact h
    · rw [time_cycle_other s hg hy]
      exact h

theorem detection_cycle_inactive (s : TrafficLightSet)
    (cars : Option (List Car)) (h : InactiveRed s) :
    InactiveRed (s.detection_cycle_step cars) := by
  by_cases hg : s.current_state = "GREEN"
  · rw [detection_cycle_green s cars hg]
    by_cases hc : ((if s.y_turn then s.count_waiting_cars cars "NS"
          else s.count_waiting_cars cars "EW") = 0 ∧
        0 < (if s.y_turn then s.count_waiting_cars cars "EW"
          else s.count_waiting_cars cars "NS")) ∨ s.current_timer - 1 ≤ 0
    · rw [if_pos hc]
      unfold InactiveRed
      rw [set_active_lights_inactive]
      exact h
    · rw [if_neg hc]
      exact h
  · rw [detection_cycle_not_green s cars hg]
    exact time_cycle_inactive s h

theorem step_inactive (s : TrafficLightSet) (cars : Option (List Car))
    (h : InactiveRed s) : InactiveRed (s.step cars) := by
  unfold TrafficLightSet.step
  split_ifs
  · exact time_cycle_inactive s h
  · exact detection_cycle_inactive s cars h
  · exact h

theorem makeEastWest_red (w h n : Nat) :
    allState (TrafficLightSet.makeEastWest w h n) "RED" := by
  unfold TrafficLightSet.makeEastWest
  dsimp only
  generalize List.range n = L
  induction L with
  | nil => intro l hl; cases hl
  | cons a L ih =>
      intro l hl
      rw [List.foldr_cons] at hl
      rcases List.mem_cons.mp hl with rfl | hl2
      · rfl
      rcases List.mem_cons.mp hl2 with rfl | hl3
      · rfl
      exact ih l hl3

theorem make_inactiveRed (w h n : Nat) (yg xg yt : Int) (d : String) :
    InactiveRed (TrafficLightSet.make w h n yg xg yt d) := by
  unfold InactiveRed inactiveLights TrafficLightSet.make
  simp only [if_true]
  exact makeEastWest_red w h n

/-- C1.  Mutual-exclusion invariant of the signal controller: the freshly
constructed controller and every controller reachable from it through
`step` (whatever the control mode, with or without a car list) keeps every
inactive-axis signal RED; consequently the north-south and east-west axes
are never simultaneously non-RED. -/
theorem C1_mutual_exclusion :
    (∀ (w h n : Nat) (yg xg yt : Int) (d : String),
      InactiveRed (TrafficLightSet.make w h n yg xg yt d) ∧
      Mutex (TrafficLightSet.make w h n yg xg yt d)) ∧
    (∀ (s : TrafficLightSet) (cars : Option (List Car)), InactiveRed s →
      InactiveRed (s.step cars) ∧ Mutex (s.step cars)) := by
  constructor
  · intro w h n yg xg yt d
    refine ⟨make_inactiveRed w h n yg xg yt d, ?_⟩
    exact mutex_of_inactiveRed _ (make_inactiveRed w h n yg xg yt d)
  · intro s cars h
    refine ⟨step_inactive s cars h, ?_⟩
    exact mutex_of_inactiveRed _ (step_inactive s cars h)

/-- Concrete run of C1: stepping a small fixed-cycle controller from a state
satisfying the invariant keeps the invariant and mutual exclusion. -/
theorem C1_witness :
    InactiveRed ((TrafficLightSet.make 8 8 1 3 5 1 "time_cycle").step none) ∧
    Mutex ((TrafficLightSet.make 8 8 1 3 5 1 "time_cycle").step none) :=
  C1_mutual_exclusion.2 (TrafficLightSet.make 8 8 1 3 5 1 "time_cycle") none
    (by decide)

theorem set_active_lights_state (s : TrafficLightSet) (st : String) :
    (s.set_active_lights st).current_state = s.current_state := by
  unfold TrafficLightSet.set_active_lights; split <;> rfl

theorem set_active_lights_timer (s : TrafficLightSet) (st : String) :
    (s.set_active_lights st).current_timer = s.current_timer := by
  unfold TrafficLightSet.set_active_lights; split <;> rfl

/-- Iterated `step(None)` on a controller, for concrete scenarios. -/
def stepN (s : TrafficLightSet) : Nat → TrafficLightSet
  | 0 => s
  | k + 1 => (stepN s k).step none

/-- The fixed-cycle scenario configuration: NS green 3, EW green 7,
yellow 1. -/
def fixedDemo : TrafficLightSet :=
  TrafficLightSet.make 20 20 1 3 7 1 "time_cycle"

/-- C4.  Fixed-cycle state machine: in `time_cycle` mode a step decrements
the timer; a GREEN phase whose decremented timer is ≤ 0 becomes YELLOW with
the yellow duration and turns the active axis YELLOW; a YELLOW phase whose
decremented timer is ≤ 0 turns the active axis RED, flips the axis, becomes
GREEN with the new axis's green duration and turns the new active axis
GREEN; otherwise only the timer changes.  Concretely, with NS green 3 and
yellow 1, steps 1–2 count 3 down to 1, step 3 switches to YELLOW (timer 1)
and step 4 swaps the axes, making EW GREEN (timer 7) and NS RED. -/
theorem C4_fixed_cycle :
    (∀ (s : TrafficLightSet) (cars : Option (List Car)),
      s.detection = "time_cycle" →
      (s.current_state = "GREEN" → 0 < s.current_timer - 1 →
        s.step cars = { s with current_timer := s.current_timer - 1 }) ∧
      (s.current_state = "GREEN" → s.current_timer - 1 ≤ 0 →
        (s.step cars).current_state = "YELLOW" ∧
        (s.step cars).current_timer = s.yellow_time ∧
        (s.step cars).y_turn = s.y_turn ∧
        allState (activeLights (s.step cars)) "YELLOW" ∧
        inactiveLights (s.step cars) = inactiveLights s) ∧
      (s.current_state = "YELLOW" → 0 < s.current_timer - 1 →
        s.step cars = { s with current_timer := s.current_timer - 1 }) ∧
      (s.current_state = "YELLOW" → s.current_timer - 1 ≤ 0 →
        (s.step cars).current_state = "GREEN" ∧
        (s.step cars).y_turn = !s.y_turn ∧
        (s.step cars).current_timer =
          (if !s.y_turn then s.y_green_time else s.x_green_time) ∧
        allState (activeLights (s.step cars)) "GREEN" ∧
        allState (inactiveLights (s.step cars)) "RED")) ∧
    ((stepN fixedDemo 1).current_state = "GREEN" ∧
     (stepN fixedDemo 1).current_timer = 2 ∧
     (stepN fixedDemo 2).current_state = "GREEN" ∧
     (stepN fixedDemo 2).current_timer = 1 ∧
     (stepN fixedDemo 3).current_state = "YELLOW" ∧
     (stepN fixedDemo 3).current_timer = 1 ∧
     allState (stepN fixedDemo 3).north_south_lights "YELLOW" ∧
     (stepN fixedDemo 4).current_state = "GREEN" ∧
     (stepN fixedDemo 4).y_turn = false ∧
     (stepN fixedDemo 4).current_timer = 7 ∧
     allState (stepN fixedDemo 4).east_west_lights "GREEN" ∧
     allState (stepN fixedDemo 4).north_south_lights "RED") := by
  constructor
  · intro s cars hd
    have hstep : s.step cars = s.time_cycle_step := by
      unfold TrafficLightSet.step; rw [if_pos hd]
    refine ⟨?_, ?_, ?_, ?_⟩
    · intro hg ht
      rw [hstep, time_cycle_green_wait s hg ht]
    · intro hg ht
      rw [hstep, time_cycle_green_switch s hg ht]
      refine ⟨?_, ?_, ?_, ?_, ?_⟩
      · rw [set_active_lights_state]
      · rw [set_active_lights_timer]
      · rw [set_active_lights_y_turn]
      · rw [set_active_lights_active]
        exact allState_map_set _ _
      · rw [set_active_lights_inactive]
        cases hb : s.y_turn <;> simp [inactiveLights, hb]
    · intro hg ht
      rw [hstep, time_cycle_yellow_wait s hg ht]
    · intro hg ht
      rw [hstep, time_cycle_yellow_switch s hg ht]
      refine ⟨?_, ?_, ?_, ?_, ?_⟩
      · rw [set_active_lights_state]
      · rw [set_active_lights_y_turn]
      · rw [set_active_lights_timer]
      · rw [set_active_lights_active]
        exact allState_map_set _ _
      · rw [set_active_lights_inactive]
        cases hb : s.y_turn <;>
          simp only [inactiveLights, TrafficLightSet.set_active_lights, hb,
            Bool.not_true, Bool.not_false, Bool.false_eq_true, if_true,
            if_false] <;>
          exact allState_map_set _ _
  · decide

/-- Concrete run of C4's YELLOW→swap rule: in the scenario state reached
after three steps, one more step swaps the axis and restores GREEN. -/
theorem C4_witness :
    ((stepN fixedDemo 3).step none).current_state = "GREEN" ∧
    ((stepN fixedDemo 3).step none).y_turn = !(stepN fixedDemo 3).y_turn ∧
    ((stepN fixedDemo 3).step none).current_timer =
      (if !(stepN fixedDemo 3).y_turn then (stepN fixedDemo 3).y_green_time
       else (stepN fixedDemo 3).x_green_time) ∧
    allState (activeLights ((stepN fixedDemo 3).step none)) "GREEN" ∧
    allState (inactiveLights ((stepN fixedDemo 3).step none)) "RED" :=
  (C4_fixed_cycle.1 (stepN fixedDemo 3) none (by decide)).2.2.2
    (by decide) (by decide)

/-- Demand-mode demo controller: long green (10), one car two cells west of
the east-west approach light, no car near a north-south light. -/
def demandDemo : TrafficLightSet :=
  TrafficLightSet.make 20 20 1 10 10 3 "detection_cycle"

/-- The single idle car of the demand demo, Chebyshev distance 2 from the
west approach light at (8, 9) and more than 2 from both NS lights. -/
def demandCar : Car := Car.make 0 (6, 9) (1, 0)

/-- C5.  Demand-responsive early switch: in `detection_cycle` mode a GREEN
step whose decremented timer is still positive switches to YELLOW exactly
when the active axis counts zero waiting cars and the inactive axis counts
at least one; with zero waiting cars on both axes only timer expiry ends
the phase; outside GREEN the step coincides with the fixed-cycle step; and
the waiting count is exactly the count of cars with Chebyshev distance ≤ 2
from some signal of the axis whose `has_moved` flag is false. -/
theorem C5_demand_responsive :
    (∀ (s : TrafficLightSet) (cs : List Car),
      s.detection = "detection_cycle" → s.current_state = "GREEN" →
      (0 < s.current_timer - 1 →
        ((s.step (some cs)).current_state = "YELLOW" ↔
          ((if s.y_turn then s.count_waiting_cars (some cs) "NS"
            else s.count_waiting_cars (some cs) "EW") = 0 ∧
           0 < (if s.y_turn then s.count_waiting_cars (some cs) "EW"
                else s.count_waiting_cars (some cs) "NS")))) ∧
      (s.count_waiting_cars (some cs) "NS" = 0 →
       s.count_waiting_cars (some cs) "EW" = 0 →
        ((s.step (some cs)).current_state = "YELLOW" ↔
          s.current_timer - 1 ≤ 0))) ∧
    (∀ (s : TrafficLightSet) (cars : Option (List Car)),
      s.current_state = "YELLOW" →
      s.detection_cycle_step cars = s.time_cycle_step) ∧
    (∀ (s : TrafficLightSet) (cs : List Car) (d : String),
      s.count_waiting_cars (some cs) d =
        cs.countP (fun car =>
          (if d = "NS" then s.north_south_lights
           else s.east_west_lights).any (fun light =>
            decide (max (car.position.1 - light.position.1).natAbs
                        (car.position.2 - light.position.2).natAbs ≤ 2 ∧
                    car.has_moved = false)))) := by
  refine ⟨?_, ?_, ?_⟩
  · intro s cs hd hg
    have hstep : s.step (some cs) = s.detection_cycle_step (some cs) := by
      unfold TrafficLightSet.step
      rw [if_neg (by rw [hd]; decide), if_pos hd]
    constructor
    · intro ht
      rw [hstep, detection_cycle_green s (some cs) hg]
      by_cases hc : ((if s.y_turn then s.count_waiting_cars (some cs) "NS"
            else s.count_waiting_cars (some cs) "EW") = 0 ∧
          0 < (if s.y_turn then s.count_waiting_cars (some cs) "EW"
               else s.count_waiting_cars (some cs) "NS")) ∨
          s.current_timer - 1 ≤ 0
      · rw [if_pos hc]
        rw [set_active_lights_state]
        constructor
        · intro _
          rcases hc with hc | hc
          · exact hc
          · omega
        · intro _
          rfl
      · rw [if_neg hc]
        constructor
        · intro habs
          have hgy : s.current_state = "YELLOW" := habs
          rw [hg] at hgy
          exact absurd hgy (by decide)
        · intro hcond
          exact absurd (Or.inl hcond) hc
    · intro hns hew
      rw [hstep, detection_cycle_green s (some cs) hg]
      have hcond : ¬ ((if s.y_turn then s.count_waiting_cars (some cs) "NS"
            else s.count_waiting_cars (some cs) "EW") = 0 ∧
          0 < (if s.y_turn then s.count_waiting_cars (some cs) "EW"
               else s.count_waiting_cars (some cs) "NS")) := by
        rw [hns, hew]
        cases s.y_turn <;> simp
      by_cases ht : s.current_timer - 1 ≤ 0
      · rw [if_pos (Or.inr ht), set_active_lights_state]
        exact iff_of_true rfl ht
      · rw [if_neg (by tauto)]
        refine iff_of_false ?_ ht
        intro habs
        have hgy : s.current_state = "YELLOW" := habs
        rw [hg] at hgy
        exact absurd hgy (by decide)
  · intro s cars hy
    exact detection_cycle_not_green s cars (by rw [hy]; decide)
  · intro s cs d
    unfold TrafficLightSet.count_waiting_cars
    dsimp only
    congr 1
    funext car
    congr 1
    funext light
    rw [decide_eq_decide, max_le_iff, and_assoc]

/-- Concrete run of C5: with one idle car near the inactive (EW) axis and
none near the active (NS) axis, the GREEN phase ends on the very next step
although nine ticks remain on the timer. -/
theorem C5_witness :
    ((demandDemo.step (some [demandCar])).current_state = "YELLOW" ↔
      ((if demandDemo.y_turn then
          demandDemo.count_waiting_cars (some [demandCar]) "NS"
        else demandDemo.count_waiting_cars (some [demandCar]) "EW") = 0 ∧
       0 < (if demandDemo.y_turn then
          demandDemo.count_waiting_cars (some [demandCar]) "EW"
        else demandDemo.count_waiting_cars (some [demandCar]) "NS"))) :=
  ((C5_demand_responsive.1 demandDemo [demandCar] (by decide) (by decide)).1
    (by decide))

/-- The boolean signal check inside `Car.step`, as a proposition: the car
stands on some RED or YELLOW signal. -/
theorem light_block_iff (c : Car) (lights : List TrafficLight) :
    (lights.any (fun light => c.at_traffic_light light &&
        decide (light.state = "RED" ∨ light.state = "YELLOW")) = true) ↔
    ∃ l ∈ lights, c.position = l.position ∧
      (l.state = "RED" ∨ l.state = "YELLOW") := by
  simp [List.any_eq_true, Car.at_traffic_light]

/-- C6.  Vehicle decision order: `Car.step` resets `has_moved` and applies
the first matching rule only — (1) next cell occupied: idle, no signal is
consulted (the outcome is the same for every signal list); (2) else at a
RED or YELLOW signal: idle; (3) else advance one cell (for the engine's
cars, whose speed is 1) and set `has_moved`. -/
theorem C6_decision_order :
    ∀ (c : Car) (lights lights2 : List TrafficLight) (others : List Car),
      (c.is_position_occupied
          (c.position.1 + c.direction.1, c.position.2 + c.direction.2)
          others = true →
        c.step lights others =
          { c with has_moved := false, idle_time := c.idle_time + 1 } ∧
        c.step lights others = c.step lights2 others) ∧
      (c.is_position_occupied
          (c.position.1 + c.direction.1, c.position.2 + c.direction.2)
          others = false →
        ((∃ l ∈ lights, c.position = l.position ∧
            (l.state = "RED" ∨ l.state = "YELLOW")) →
          c.step lights others =
            { c with has_moved := false, idle_time := c.idle_time + 1 }) ∧
        ((∀ l ∈ lights, c.position = l.position →
            l.state ≠ "RED" ∧ l.state ≠ "YELLOW") → c.speed = 1 →
          c.step lights others =
            { c with position := (c.position.1 + c.direction.1,
                                  c.position.2 + c.direction.2),
                     has_moved := true })) := by
  intro c lights lights2 others
  constructor
  · intro hocc
    constructor
    · unfold Car.step
      dsimp only
      rw [if_pos hocc]
    · unfold Car.step
      dsimp only
      rw [if_pos hocc, if_pos hocc]
  · intro hocc
    have hoccn : ¬ (c.is_position_occupied
        (c.position.1 + c.direction.1, c.position.2 + c.direction.2)
        others = true) := by rw [hocc]; decide
    constructor
    · intro hex
      unfold Car.step
      dsimp only
      rw [if_neg hoccn, if_pos ((light_block_iff c lights).mpr hex)]
    · intro hall hspeed
      have hnot : ¬ (lights.any (fun light => c.at_traffic_light light &&
          decide (light.state = "RED" ∨ light.state = "YELLOW")) = true) := by
        rw [light_block_iff]
        rintro ⟨l, hl, hp, hs⟩
        rcases hall l hl hp with ⟨hr, hy⟩
        cases hs with
        | inl h => exact hr h
        | inr h => exact hy h
      unfold Car.step
      dsimp only
      rw [if_neg hoccn, if_neg hnot]
      unfold Car.move_forward
      rw [show ({ c with has_moved := false } : Car).speed = c.speed from rfl,
          hspeed]
      simp

/-- Concrete run of C6, rule 3: a car alone on a GREEN signal advances one
cell and records the move. -/
theorem C6_witness :
    Car.step (Car.make 5 (2, 3) (0, 1))
      [{ position := (2, 3), state := "GREEN", direction := "NS" }] [] =
    { Car.make 5 (2, 3) (0, 1) with position := (2, 4), has_moved := true } :=
  ((C6_decision_order (Car.make 5 (2, 3) (0, 1))
      [{ position := (2, 3), state := "GREEN", direction := "NS" }]
      [] []).2 (by decide)).2 (by decide) rfl

/-- Embeds `TrafficLightSet.step` with a detection string that is neither
recognized mode leaves the controller untouched. -/
theorem step_unrecognized (s : TrafficLightSet) (cars : Option (List Car))
    (h1 : s.detection ≠ "time_cycle") (h2 : s.detection ≠ "detection_cycle") :
    s.step cars = s := by
  unfold TrafficLightSet.step
  rw [if_neg h1, if_neg h2]

/-- Modelled from the spec: "constructing with an unrecognized mode value is
a configuration error, rejected at construction, not at step() time."  No
such rejection exists anywhere in `src/TrafficLight.py` (or in
`src/Environment.py`); this validating constructor renders the spec's words
for comparison with the code's unconditional constructor. -/
def TrafficLightSet.makeChecked (grid_width grid_height num_lanes : Nat)
    (y_green_time x_green_time yellow_time : Int) (detection : String) :
    Option TrafficLightSet :=
  if detection = "time_cycle" ∨ detection = "detection_cycle" then
    some (TrafficLightSet.make grid_width grid_height num_lanes
      y_green_time x_green_time yellow_time detection)
  else none

/-- C9 counterexample: the spec-side constructor rejects the mode string
"bogus", but the code's constructor happily builds a controller carrying
it, and even `step` on that controller raises nothing — it is a no-op. -/
theorem C9_counterexample :
    TrafficLightSet.makeChecked 20 20 1 30 30 3 "bogus" = none ∧
    (TrafficLightSet.make 20 20 1 30 30 3 "bogus").detection = "bogus" ∧
    (TrafficLightSet.make 20 20 1 30 30 3 "bogus").step none =
      TrafficLightSet.make 20 20 1 30 30 3 "bogus" := by
  refine ⟨?_, rfl, ?_⟩
  · unfold TrafficLightSet.makeChecked
    rw [if_neg (by decide)]
  · exact step_unrecognized _ none (by decide) (by decide)

/-- C9 amended: the controller constructor performs no mode validation —
any mode string is accepted and stored as-is, and for an unrecognized mode
the failure is not deferred to `step()` either: `step()` is a silent
no-op. -/
theorem C9_no_validation :
    ∀ (w h n : Nat) (yg xg yt : Int) (d : String),
      (TrafficLightSet.make w h n yg xg yt d).detection = d ∧
      (d ≠ "time_cycle" → d ≠ "detection_cycle" →
        ∀ cars, (TrafficLightSet.make w h n yg xg yt d).step cars =
          TrafficLightSet.make w h n yg xg yt d) := by
  intro w h n yg xg yt d
  refine ⟨rfl, fun h1 h2 cars => step_unrecognized _ cars h1 h2⟩

/-- Concrete run of C9: the mode string "weird" is accepted at construction
and stepping is a no-op. -/
theorem C9_witness :
    (TrafficLightSet.make 20 20 1 30 30 3 "weird").step (some []) =
      TrafficLightSet.make 20 20 1 30 30 3 "weird" :=
  (C9_no_validation 20 20 1 30 30 3 "weird").2 (by decide) (by decide)
    (some [])

/-- C10.  For every controller whose detection string is neither
"time_cycle" nor "detection_cycle", `step` is a silent no-op: no error and
the whole state — every signal color, the phase and the timer — is
unchanged. -/
theorem C10_unrecognized_noop :
    ∀ (s : TrafficLightSet) (cars : Option (List Car)),
      s.detection ≠ "time_cycle" → s.detection ≠ "detection_cycle" →
      s.step cars = s :=
  fun s cars h1 h2 => step_unrecognized s cars h1 h2

/-- Concrete run of C10 on a controller state carrying an unrecognized
mode string. -/
theorem C10_witness :
    ({ fixedDemo with detection := "off" } : TrafficLightSet).step
        (some [demandCar]) = { fixedDemo with detection := "off" } :=
  C10_unrecognized_noop { fixedDemo with detection := "off" }
    (some [demandCar]) (by decide) (by decide)

/-! ### No-overlap invariant of the engine -/

/-- Two cars differ in id. -/
def IdNe (a b : Car) : Prop := a.id ≠ b.id

/-- Two cars differ in position. -/
def PosNe (a b : Car) : Prop := a.position ≠ b.position

instance : DecidableRel IdNe := fun a b => by unfold IdNe; infer_instance

instance : DecidableRel PosNe := fun a b => by unfold PosNe; infer_instance

theorem Car.step_id (c : Car) (l : List TrafficLight) (o : List Car) :
    (c.step l o).id = c.id := by
  unfold Car.step
  dsimp only
  split_ifs <;> rfl

theorem Car.step_speed (c : Car) (l : List TrafficLight) (o : List Car) :
    (c.step l o).speed = c.speed := by
  unfold Car.step
  dsimp only
  split_ifs <;> rfl

/-- A stepped car either kept its position or moved to
`position + direction * speed`, and in the latter case the cell
`position + direction` was reported free among the other cars. -/
theorem Car.step_pos (c : Car) (l : List TrafficLight) (o : List Car) :
    (c.step l o).position = c.position ∨
    ((c.step l o).position =
        (c.position.1 + c.direction.1 * c.speed,
         c.position.2 + c.direction.2 * c.speed) ∧
      c.is_position_occupied
        (c.position.1 + c.direction.1, c.position.2 + c.direction.2) o
        = false) := by
  unfold Car.step
  dsimp only
  split_ifs with h1 h2
  · left; rfl
  · left; rfl
  · right
    exact ⟨rfl, Bool.eq_false_iff.mpr h1⟩

theorem is_position_occupied_false (c : Car) (pos : Int × Int)
    (o : List Car) (h : c.is_position_occupied pos o = false) :
    ∀ x ∈ o, x.id ≠ c.id → x.position ≠ pos := by
  intro x hx hid hpos
  unfold Car.is_position_occupied at h
  simp only [List.any_eq_false, decide_eq_true_eq] at h
  exact h x hx ⟨hid, hpos⟩

/-- Replacing the middle element of a pairwise-related list keeps the
relation, provided the replacement relates the same way to both sides. -/
theorem pairwise_middle {R : Car → Car → Prop} {done todo : List Car}
    {c c' : Car} (h : (done ++ c :: todo).Pairwise R)
    (h1 : ∀ x ∈ done, R x c → R x c')
    (h2 : ∀ x ∈ todo, R c x → R c' x) :
    (done ++ c' :: todo).Pairwise R := by
  rw [List.pairwise_append] at h ⊢
  obtain ⟨hd, hct, hcross⟩ := h
  refine ⟨hd, ?_, ?_⟩
  · rw [List.pairwise_cons] at hct ⊢
    exact ⟨fun x hx => h2 x hx (hct.1 x hx), hct.2⟩
  · intro a ha b hb
    rcases List.mem_cons.mp hb with rfl | hb2
    · exact h1 a ha (hcross a ha c (List.mem_cons_self c todo))
    · exact hcross a ha b (List.mem_cons.mpr (Or.inr hb2))

/-- The update pass permutes no car in or out and changes no field that
`f` observes, provided `f` is invariant under `Car.step`. -/
theorem update_go_map {α : Type} (f : Car → α)
    (hf : ∀ (c : Car) (l : List TrafficLight) (o : List Car),
      f (c.step l o) = f c) (lights : List TrafficLight) :
    ∀ (todo done : List Car),
      (Environment.update_go lights done todo).map f = (done ++ todo).map f := by
  intro todo
  induction todo with
  | nil => intro done; simp [Environment.update_go]
  | cons c todo ih =>
      intro done
      unfold Environment.update_go
      rw [ih]
      simp [hf]

/-- Core induction for the no-overlap invariant: if ids are pairwise
distinct, positions are pairwise distinct and every speed is 1, then after
the live in-order update pass positions are still pairwise distinct. -/
theorem update_go_distinct (lights : List TrafficLight) :
    ∀ (todo done : List Car),
      (done ++ todo).Pairwise IdNe → (done ++ todo).Pairwise PosNe →
      (∀ x ∈ done ++ todo, x.speed = 1) →
      (Environment.update_go lights done todo).Pairwise PosNe := by
  intro todo
  induction todo with
  | nil =>
      intro done _ hpos _
      unfold Environment.update_go
      simpa using hpos
  | cons c todo ih =>
      intro done hid hpos hsp
      unfold Environment.update_go
      set c' := c.step lights (done ++ c :: todo) with hc'
      have happ : (done ++ [c']) ++ todo = done ++ c' :: todo := by simp
      have hcid : c'.id = c.id := by rw [hc']; exact Car.step_id _ _ _
      have hcsp : c'.speed = c.speed := by rw [hc']; exact Car.step_speed _ _ _
      have hcmem : c ∈ done ++ c :: todo := by simp
      have hid' : (done ++ c' :: todo).Pairwise IdNe := by
        refine pairwise_middle hid ?_ ?_
        · intro x _ hr
          unfold IdNe at hr ⊢
          rw [hcid]; exact hr
        · intro x _ hr
          unfold IdNe at hr ⊢
          rw [hcid]; exact hr
      have hpos' : (done ++ c' :: todo).Pairwise PosNe := by
        rcases Car.step_pos c lights (done ++ c :: todo) with hsame | ⟨hmv, hfree⟩
        · rw [← hc'] at hsame
          refine pairwise_middle hpos ?_ ?_
          · intro x _ hr
            unfold PosNe at hr ⊢
            rw [hsame]; exact hr
          · intro x _ hr
            unfold PosNe at hr ⊢
            rw [hsame]; exact hr
        · rw [← hc'] at hmv
          have hcpos : c'.position =
              (c.position.1 + c.direction.1, c.position.2 + c.direction.2) := by
            rw [hmv, hsp c hcmem]
            simp
          have hfar := is_position_occupied_false c _ _ hfree
          have hcrossid : ∀ x ∈ done, x.id ≠ c.id := by
            intro x hx
            exact (List.pairwise_append.mp hid).2.2 x hx c (by simp)
          have htailid : ∀ x ∈ todo, x.id ≠ c.id := by
            intro x hx
            have := (List.pairwise_cons.mp
              (List.pairwise_append.mp hid).2.1).1 x hx
            exact fun habs => this habs.symm
          refine pairwise_middle hpos ?_ ?_
          · intro x hx _
            unfold PosNe
            rw [hcpos]
            exact hfar x (by simp [hx]) (hcrossid x hx)
          · intro x hx _
            unfold PosNe
            rw [hcpos]
            intro habs
            exact hfar x (by simp [hx]) (htailid x hx) habs.symm
      have hsp' : ∀ x ∈ done ++ c' :: todo, x.speed = 1 := by
        intro x hx
        rcases List.mem_append.mp hx with hx | hx
        · exact hsp x (by simp [hx])
        rcases List.mem_cons.mp hx with rfl | hx
        · rw [hcsp]; exact hsp c hcmem
        · exact hsp x (by simp [hx])
      refine ih (done ++ [c']) ?_ ?_ ?_
      · rw [happ]; exact hid'
      · rw [happ]; exact hpos'
      · rw [happ]; exact hsp'

/-- Engine invariant: pairwise distinct ids, pairwise distinct positions,
all speeds 1, and every id below the fresh-id counter. -/
def EnvInv (e : Environment) : Prop :=
  e.cars.Pairwise IdNe ∧ e.cars.Pairwise PosNe ∧
  (∀ x ∈ e.cars, x.speed = 1) ∧ (∀ x ∈ e.cars, x.id < e.car_id_counter)

instance (e : Environment) : Decidable (EnvInv e) := by
  unfold EnvInv; infer_instance

theorem envinv_congr (e e' : Environment) (hc : e'.cars = e.cars)
    (hk : e'.car_id_counter = e.car_id_counter) (h : EnvInv e) : EnvInv e' := by
  unfold EnvInv at h ⊢
  rw [hc, hk]
  exact h

theorem env_occupied_false (e : Environment) (pos : Int × Int)
    (h : ¬ (e.is_position_occupied pos = true)) :
    ∀ x ∈ e.cars, x.position ≠ pos := by
  unfold Environment.is_position_occupied at h
  simp only [List.any_eq_true, decide_eq_true_eq, not_exists] at h
  intro x hx
  intro habs
  exact (h x) ⟨hx, habs⟩

theorem spawn_car_inv (e : Environment) (h : EnvInv e) :
    EnvInv e.spawn_car := by
  obtain ⟨hid, hpos, hsp, hfr⟩ := h
  unfold Environment.spawn_car
  dsimp only
  split_ifs with hocc
  · exact ⟨hid, hpos, hsp, hfr⟩
  · refine ⟨?_, ?_, ?_, ?_⟩
    · rw [List.pairwise_append]
      refine ⟨hid, List.pairwise_singleton _ _, ?_⟩
      intro a ha b hb
      rcases List.mem_singleton.mp hb with rfl
      exact Nat.ne_of_lt (hfr a ha)
    · rw [List.pairwise_append]
      refine ⟨hpos, List.pairwise_singleton _ _, ?_⟩
      intro a ha b hb
      rcases List.mem_singleton.mp hb with rfl
      exact env_occupied_false e _ hocc a ha
    · intro x hx
      rcases List.mem_append.mp hx with hx | hx
      · exact hsp x hx
      · rcases List.mem_singleton.mp hx with rfl; rfl
    · intro x hx
      rcases List.mem_append.mp hx with hx | hx
      · exact Nat.lt_succ_of_lt (hfr x hx)
      · rcases List.mem_singleton.mp hx with rfl
        exact Nat.lt_succ_self _

theorem update_inv (e : Environment) (lights : List TrafficLight)
    (h : EnvInv e) :
    EnvInv { e with cars := Environment.update_cars lights e.cars } := by
  obtain ⟨hid, hpos, hsp, hfr⟩ := h
  have hmapid : (Environment.update_cars lights e.cars).map Car.id =
      e.cars.map Car.id :=
    update_go_map Car.id Car.step_id lights e.cars []
  have hmapsp : (Environment.update_cars lights e.cars).map Car.speed =
      e.cars.map Car.speed :=
    update_go_map Car.speed Car.step_speed lights e.cars []
  refine ⟨?_, ?_, ?_, ?_⟩
  · have hm : ((Environment.update_cars lights e.cars).map Car.id).Pairwise
        (fun a b => a ≠ b) := by
      rw [hmapid]
      exact List.pairwise_map.mpr hid
    have hm2 := List.pairwise_map.mp hm
    exact hm2
  · exact update_go_distinct lights e.cars [] hid hpos hsp
  · intro x hx
    have : x.speed ∈ (Environment.update_cars lights e.cars).map Car.speed :=
      List.mem_map_of_mem Car.speed hx
    rw [hmapsp] at this
    rcases List.mem_map.mp this with ⟨y, hy, hxy⟩
    rw [← hxy]
    exact hsp y hy
  · intro x hx
    have : x.id ∈ (Environment.update_cars lights e.cars).map Car.id :=
      List.mem_map_of_mem Car.id hx
    rw [hmapid] at this
    rcases List.mem_map.mp this with ⟨y, hy, hxy⟩
    rw [← hxy]
    exact hfr y hy

theorem remove_inv (e : Environment) (h : EnvInv e) :
    EnvInv e.remove_completed_cars := by
  obtain ⟨hid, hpos, hsp, hfr⟩ := h
  unfold Environment.remove_completed_cars
  refine ⟨hid.filter _, hpos.filter _, ?_, ?_⟩
  · intro x hx
    exact hsp x (List.mem_of_mem_filter hx)
  · intro x hx
    exact hfr x (List.mem_of_mem_filter hx)

theorem step_env_inv (e : Environment) (draw : Bool) (h : EnvInv e) :
    EnvInv (e.step draw) := by
  have h1 : EnvInv e.light_phase := envinv_congr e _ rfl rfl h
  have h2 : EnvInv (e.light_phase.spawn_phase draw) := by
    cases draw
    · exact h1
    · exact spawn_car_inv _ h1
  have h3 : EnvInv (e.light_phase.spawn_phase draw).vehicle_phase :=
    update_inv _ _ h2
  have h4 := remove_inv _ h3
  exact envinv_congr _ _ rfl rfl h4

/-- C2.  No-overlap invariant: from any engine state with pairwise-distinct
ids and positions (and the engine's constant speed 1 and fresh id counter),
one full tick preserves the invariant — in particular no two active cars
share a cell after the tick; a state with no cars satisfies the invariant,
so every run started empty keeps it forever; and the spawn step refuses an
occupied entry cell outright. -/
theorem C2_no_overlap :
    (∀ (e : Environment) (draw : Bool), EnvInv e →
      EnvInv (e.step draw) ∧ (e.step draw).cars.Pairwise PosNe) ∧
    (∀ e : Environment, e.cars = [] → EnvInv e) ∧
    (∀ e : Environment,
      e.is_position_occupied (0, ((e.grid_height / 2 : Nat) : Int)) = true →
      e.spawn_car = e) := by
  refine ⟨?_, ?_, ?_⟩
  · intro e draw h
    have hstep := step_env_inv e draw h
    exact ⟨hstep, hstep.2.1⟩
  · intro e he
    unfold EnvInv
    rw [he]
    simp
  · intro e hocc
    unfold Environment.spawn_car
    dsimp only
    rw [if_pos hocc]

/-- Engine state used for concrete runs: two distinct eastbound cars in
front of a small fixed-cycle controller. -/
def demoEnv : Environment :=
  { light_type := "time_cycle", grid_width := 20, grid_height := 20,
    cars := [Car.make 0 (5, 5) (1, 0), Car.make 1 (6, 5) (1, 0)],
    time := 0, spawn_rate := 3 / 10, max_cars := none, num_lanes := 1,
    traffic_light := TrafficLightSet.make 20 20 1 30 30 3 "time_cycle",
    simulation_duration := some 200, car_id_counter := 2,
    total_cars_spawned := 2, total_cars_completed := 0, is_running := true }

/-- Concrete run of C2: one tick of the two-car engine keeps the invariant
and leaves the two cars on distinct cells. -/
theorem C2_witness :
    EnvInv (demoEnv.step true) ∧ (demoEnv.step true).cars.Pairwise PosNe :=
  C2_no_overlap.1 demoEnv true (by decide)

/-! ### Order dependence of the vehicle-update pass, engine wiring,
and the idle-time statistic -/

/-- Lead car of the order-dependence scenario (no signal anywhere near). -/
def carA : Car := Car.make 0 (5, 5) (1, 0)

/-- Follower car of the order-dependence scenario, directly ahead of
`carA`. -/
def carB : Car := Car.make 1 (6, 5) (1, 0)

/-- C3 counterexample: the same two-car set, processed in the two possible
orders, does not even yield the same multiset of post-tick cars — the
processing order changes positions, idle times and `has_moved` flags. -/
theorem C3_counterexample :
    ¬ List.Perm (Environment.update_cars [] [carA, carB])
        (Environment.update_cars [] [carB, carA]) := by decide

/-- C3 amended: the update pass reads the live, partially-updated car list.
When the blocked car `carA` is processed after `carB`, it sees the cell
`carB` vacated in this same tick and drives into it; against the pre-tick
snapshot the very same car idles.  So an earlier-processed car's applied
move is visible to later cars and the post-tick state depends on the
processing order. -/
theorem C3_live_update_order_dependent :
    ((Environment.update_cars [] [carA, carB]).map
        (fun c => (c.id, c.position, c.idle_time, c.has_moved)) =
      [(0, ((5 : Int), (5 : Int)), 1, false),
       (1, ((7 : Int), (5 : Int)), 0, true)]) ∧
    ((Environment.update_cars [] [carB, carA]).map
        (fun c => (c.id, c.position, c.idle_time, c.has_moved)) =
      [(1, ((7 : Int), (5 : Int)), 0, true),
       (0, ((6 : Int), (5 : Int)), 0, true)]) ∧
    (Car.step carA [] [carA, carB]).has_moved = false := by decide

/-- Demand-mode engine whose only car is idling two cells west of the
east-west approach light while the north-south axis is GREEN — the state in
which the demand controller, fed the car list, would switch at once. -/
def detectEnv : Environment :=
  { light_type := "detection_cycle", grid_width := 20, grid_height := 20,
    cars := [demandCar], time := 0, spawn_rate := 0, max_cars := none,
    num_lanes := 1, traffic_light := demandDemo,
    simulation_duration := some 200, car_id_counter := 1,
    total_cars_spawned := 1, total_cars_completed := 0, is_running := true }

/-- C7: the tick calls the controller with no car list.  In `detectEnv` the
engine's own tick leaves the phase GREEN — its controller update is exactly
`step none` — although the controller, given the tick's starting car
collection as the claim describes, would have switched to YELLOW. -/
theorem C7_controller_without_cars :
    (detectEnv.step false).traffic_light.current_state = "GREEN" ∧
    (detectEnv.step false).traffic_light = detectEnv.traffic_light.step none ∧
    (detectEnv.traffic_light.step (some detectEnv.cars)).current_state =
      "YELLOW" := by decide

/-- Engine state with one never-completed car that has idled three ticks. -/
def idleEnv : Environment :=
  { light_type := "time_cycle", grid_width := 20, grid_height := 20,
    cars := [{ Car.make 0 (9, 9) (1, 0) with idle_time := 3 }],
    time := 5, spawn_rate := 0, max_cars := none, num_lanes := 1,
    traffic_light := TrafficLightSet.make 20 20 1 30 30 3 "time_cycle",
    simulation_duration := none, car_id_counter := 1,
    total_cars_spawned := 1, total_cars_completed := 0, is_running := true }

/-- C8 counterexample: with zero completed cars the claim demands an average
of 0.0, but the code reports 3 — it averages over the *active* cars (and no
cumulative idle of completed cars exists anywhere in the engine state). -/
theorem C8_counterexample :
    idleEnv.total_cars_completed = 0 ∧
    idleEnv.get_average_idle_time ≠ 0 ∧
    idleEnv.get_average_idle_time = 3 := by
  have h3 : idleEnv.get_average_idle_time = 3 := by
    unfold idleEnv Environment.get_average_idle_time
    norm_num [Car.make]
  refine ⟨rfl, ?_, h3⟩
  rw [h3]
  norm_num

/-- C8 amended: `get_average_idle_time` is the mean idle time of the
currently active cars — independent of the completed counter, 0 when no car
is active, and equal to (sum of active idle times) / (number of active
cars) otherwise. -/
theorem C8_average_over_active :
    ∀ (e : Environment) (n : Nat),
      ({ e with total_cars_completed := n } :
          Environment).get_average_idle_time = e.get_average_idle_time ∧
      (e.cars = [] → e.get_average_idle_time = 0) ∧
      (e.cars ≠ [] →
        e.get_average_idle_time * (e.cars.length : ℚ) =
          (e.cars.map (fun car => (car.idle_time : ℚ))).sum) := by
  intro e n
  refine ⟨rfl, ?_, ?_⟩
  · intro he
    unfold Environment.get_average_idle_time
    rw [he]
    rfl
  · intro hne
    unfold Environment.get_average_idle_time
    have hlen : ¬ e.cars.length = 0 := by
      rw [List.length_eq_zero]
      exact hne
    rw [if_neg hlen]
    have hb : (e.cars.length : ℚ) ≠ 0 := by
      rw [Ne, Nat.cast_eq_zero]
      exact hlen
    exact div_mul_cancel₀ _ hb

/-- Concrete run of C8: for the one-car engine the reported average times
the active-car count gives back the sum of active idle times. -/
theorem C8_witness :
    idleEnv.get_average_idle_time * (idleEnv.cars.length : ℚ) =
      (idleEnv.cars.map (fun car => (car.idle_time : ℚ))).sum :=
  (C8_average_over_active idleEnv 7).2.2 (by decide)
